import Mathlib

/-!
Shallow embedding of the PomoTeam focus-session engine and reporting
aggregator (src/app.py).

Modelling conventions:
* timestamps are integers (seconds since an arbitrary epoch); the UTC clock
  value at the time of a request is passed to each operation as `now`;
* database rows are Lean structures, the database itself a record of lists;
* nullable columns are `Option`s; SQLAlchemy primary keys are `Int`s;
* each Flask route handler becomes a pure function from the database state
  and the parsed form inputs to an `Except Err` result; a Python `abort`,
  `ValueError` or `AttributeError` aborts the request before `commit`, so it
  is modelled as an `error` result that leaves the database unchanged;
* Python `//` on a nonnegative divisor is floor division, `Int.fdiv`.
-/

namespace Pomo

/-- Errors a handler can surface: HTTP 404 (`get_or_404`), HTTP 403
(`abort(403)`), a Python `ValueError` from `int()` on a malformed string, and
a Python `AttributeError` from dereferencing a `None` task in the completion
heuristic. -/
inductive Err where
  | notFound
  | forbidden
  | valueError
  | attributeError
deriving DecidableEq

/-- `User` model (src/app.py:25-32), restricted to the columns the session
and reporting logic reads. -/
structure User where
  id : Int
  role : String := "member"
  team_id : Option Int := none
deriving DecidableEq

/-- `Task` model (src/app.py:39-52), restricted to the columns the session
and reporting logic reads. Integer columns are nullable in the schema, hence
`Option Int`; the code guards them with `or 0`. -/
structure Task where
  id : Int
  project_id : Option Int := none
  assignee_id : Option Int := none
  status : String := "todo"
  estimate_pomos : Option Int := some 0
  actual_pomos : Option Int := some 0
deriving DecidableEq

/-- `FocusSession` model (src/app.py:54-67). -/
structure FocusSession where
  id : Int
  user_id : Int
  task_id : Option Int := none
  project_id : Option Int := none
  start_time : Int
  end_time : Option Int := none
  planned_minutes : Int := 25
  actual_minutes : Option Int := some 0
  was_completed : Bool := false
  notes : Option String := none
deriving DecidableEq

/-- The database: the tables the core reads and writes, plus the
autoincrement counter for `FocusSession` primary keys. -/
structure DB where
  users : List User := []
  tasks : List Task := []
  sessions : List FocusSession := []
  next_session_id : Int := 1
deriving DecidableEq

/-- Python `x or 0` on a nullable integer column (`None` and `0` are both
falsy and map to `0`; any other integer maps to itself). -/
def orZero (o : Option Int) : Int := o.getD 0

/-- `Task.query.get(tid)`: primary-key lookup. -/
def findTask (l : List Task) (tid : Int) : Option Task :=
  l.find? (fun t => t.id == tid)

/-- `FocusSession.query.get(sid)`: primary-key lookup. -/
def findSession (l : List FocusSession) (sid : Int) : Option FocusSession :=
  l.find? (fun s => s.id == sid)

/-- Helper for `int(str)`: a nonempty all-digit character list read in base
ten, otherwise `none`. -/
def digitsToNat (l : List Char) : Option Nat :=
  if l ≠ [] ∧ l.all (fun c => c.isDigit) then
    some (l.foldl (fun acc c => 10 * acc + (c.toNat - 48)) 0)
  else none

/-- Python `int()` applied to a string: surrounding whitespace is ignored,
then an optional sign followed by at least one decimal digit; anything else
raises `ValueError`, modelled as `none`. -/
def pyInt (s : String) : Option Int :=
  let t := ((s.data.dropWhile (fun c => c.isWhitespace)).reverse.dropWhile
      (fun c => c.isWhitespace)).reverse
  match t with
  | '-' :: rest => (digitsToNat rest).map (fun n => -(n : Int))
  | '+' :: rest => (digitsToNat rest).map (fun n => (n : Int))
  | _ => (digitsToNat t).map (fun n => (n : Int))

/-- `planned = int(request.form.get("planned_minutes", 25) or 25)`
(src/app.py:327). A missing key gives the integer default 25; an empty
string is falsy and also gives 25; any other string goes through `int()`,
which raises `ValueError` on a non-numeric value. -/
def parsePlanned (v : Option String) : Except Err Int :=
  match v with
  | none => .ok 25
  | some str =>
    if str = "" then .ok 25
    else
      match pyInt str with
      | some n => .ok n
      | none => .error .valueError

/-- `task_id = int(request.form["task_id"]) if request.form.get("task_id")
else None` (src/app.py:326). -/
def parseTaskId (v : Option String) : Except Err (Option Int) :=
  match v with
  | none => .ok none
  | some str =>
    if str = "" then .ok none
    else
      match pyInt str with
      | some n => .ok (some n)
      | none => .error .valueError

/-- `start_session` route handler (src/app.py:322-335). `me` is the id of
the authenticated caller; `task_id_form` and `planned_form` are the raw form
fields, `none` when absent; `now` is `datetime.datetime.utcnow()`. Returns
the updated database and the new session id. -/
def start_session (db : DB) (me : Int) (task_id_form planned_form : Option String)
    (now : Int) : Except Err (DB × Int) :=
  match parseTaskId task_id_form with
  | .error e => .error e
  | .ok task_id =>
    match parsePlanned planned_form with
    | .error e => .error e
    | .ok planned =>
      -- project_id = task.project_id if task else None, guarded by
      -- `if task_id:` (falsy for both None and 0)
      let project_id : Option Int :=
        match task_id with
        | some tid =>
          if tid ≠ 0 then
            match findTask db.tasks tid with
            | some t => t.project_id
            | none => none
          else none
        | none => none
      let s : FocusSession :=
        { id := db.next_session_id, user_id := me, task_id := task_id,
          project_id := project_id, start_time := now,
          planned_minutes := planned }
      let db' : DB :=
        { db with
          sessions := db.sessions ++ [s]
          next_session_id := db.next_session_id + 1 }
      .ok (db', s.id)

/-- `finish_session` route handler (src/app.py:337-353). `caller` is the id
of the authenticated caller; `completed_form` and `notes_form` are the raw
form fields; `now` is `datetime.datetime.utcnow()`. A raised
`abort(404)`/`abort(403)`/`AttributeError` prevents the commit, leaving the
database unchanged, hence the `error` results. -/
def finish_session (db : DB) (caller : Int) (sid : Int)
    (completed_form notes_form : Option String) (now : Int) : Except Err DB :=
  match findSession db.sessions sid with
  | none => .error .notFound
  | some s =>
    if s.user_id ≠ caller then .error .forbidden
    else
      let delta := Int.fdiv (now - s.start_time) 60
      let am := max delta 0
      let wc := (completed_form.getD "true") == "true"
      let s' : FocusSession :=
        { s with end_time := some now, actual_minutes := some am,
                 was_completed := wc,
                 notes := match notes_form with
                          | some n => if n ≠ "" then some n else s.notes
                          | none => s.notes }
      let sessions' := db.sessions.map (fun x => if x.id == s.id then s' else x)
      match s.task_id with
      | some tid =>
        if (tid != 0) && wc && decide (s.planned_minutes - 1 ≤ am) then
          match findTask db.tasks tid with
          | some t =>
            let t' := { t with actual_pomos := some (orZero t.actual_pomos + 1) }
            .ok { db with
                  sessions := sessions'
                  tasks := db.tasks.map (fun x => if x.id == tid then t' else x) }
          | none => .error .attributeError
        else .ok { db with sessions := sessions' }
      | none => .ok { db with sessions := sessions' }

/-- Python `round()` to the nearest integer, ties to even. -/
def roundHalfEven (q : ℚ) : Int :=
  let f := ⌊q⌋
  let r := q - (f : ℚ)
  if r < 1 / 2 then f
  else if 1 / 2 < r then f + 1
  else if f % 2 = 0 then f else f + 1

/-- Python `round(x, 1)`: round to one decimal place. -/
def roundTenths (q : ℚ) : ℚ := (roundHalfEven (q * 10) : ℚ) / 10

/-- One entry of `members_stats` in the team dashboard. -/
structure MemberStats where
  user_id : Int
  focus_minutes : Int
  pomos : Nat
  tasks_done : Nat
  estimate_accuracy : ℚ
deriving DecidableEq

/-- The per-user statistics block of the `team_dashboard` loop body
(src/app.py:186-196): sessions are filtered by owner and by
`start_time >= start` only; done tasks by current status; accuracy is
`act/est*100` rounded to one decimal when `est > 0`, else `0`. -/
def perUserStats (db : DB) (uid : Int) (start : Int) : MemberStats :=
  let ss := db.sessions.filter
    (fun s => s.user_id == uid && decide (start ≤ s.start_time))
  let mins := (ss.map (fun s => orZero s.actual_minutes)).sum
  let pomos := (ss.filter (fun s => s.was_completed)).length
  let doneTasks := db.tasks.filter
    (fun t => t.assignee_id == some uid && t.status == "done")
  let est := (doneTasks.map (fun t => orZero t.estimate_pomos)).sum
  let act := (doneTasks.map (fun t => orZero t.actual_pomos)).sum
  let acc : ℚ := if 0 < est then (act : ℚ) / (est : ℚ) * 100 else 0
  { user_id := uid, focus_minutes := mins, pomos := pomos,
    tasks_done := doneTasks.length, estimate_accuracy := roundTenths acc }

/-- `team_dashboard` route handler (src/app.py:169-210), reduced to its
data computation: requires the leader role (`leader_required`), then maps
the per-user statistics over the caller's team members. (The handler
additionally sorts the rows by focus minutes for display and renders
charts; that presentation is not modelled.) -/
def team_dashboard (db : DB) (me : User) (start : Int) :
    Except Err (List MemberStats) :=
  if me.role ≠ "leader" then .error .forbidden
  else
    .ok ((db.users.filter (fun u => u.team_id == me.team_id)).map
      (fun u => perUserStats db u.id start))

instance {ε α : Type} [DecidableEq ε] [DecidableEq α] :
    DecidableEq (Except ε α) := fun x y =>
  match x, y with
  | .error a, .error b =>
    match decEq a b with
    | isTrue h => isTrue (by rw [h])
    | isFalse h => isFalse (fun hc => h (Except.error.inj hc))
  | .ok a, .ok b =>
    match decEq a b with
    | isTrue h => isTrue (by rw [h])
    | isFalse h => isFalse (fun hc => h (Except.ok.inj hc))
  | .error _, .ok _ => isFalse (fun hc => Except.noConfusion hc)
  | .ok _, .error _ => isFalse (fun hc => Except.noConfusion hc)

/-! Concrete databases used to instantiate the theorems below. -/

/-- An empty database. -/
def dbE : DB := {}

/-- A task in progress, assigned to user 7. -/
def wTask : Task := { id := 1, assignee_id := some 7, status := "doing" }

/-- An open 25-minute session of user 7 linked to task 1, started at time 0. -/
def wSess : FocusSession :=
  { id := 1, user_id := 7, task_id := some 1, start_time := 0,
    planned_minutes := 25 }

/-- Database with one task and one open session. -/
def wDB : DB := { tasks := [wTask], sessions := [wSess], next_session_id := 2 }

/-- A task whose counter has already been bumped once by a finished session. -/
def cTask : Task :=
  { id := 1, assignee_id := some 7, status := "doing", actual_pomos := some 1 }

/-- A closed session: user 7 finished it at time 6000 with 25 actual minutes. -/
def cSess : FocusSession :=
  { id := 1, user_id := 7, task_id := some 1, start_time := 0,
    end_time := some 1500, planned_minutes := 25, actual_minutes := some 25,
    was_completed := true }

/-- Database holding the already-closed session and its task. -/
def cDB : DB := { tasks := [cTask], sessions := [cSess], next_session_id := 2 }

/-- An open session of user 7 whose linked task 9 does not exist. -/
def dSess : FocusSession :=
  { id := 1, user_id := 7, task_id := some 9, start_time := 0,
    planned_minutes := 25 }

/-- Database with a session pointing at a deleted task. -/
def dDB : DB := { tasks := [], sessions := [dSess], next_session_id := 2 }

/-- Sessions around a window boundary at time 100 (reporting `now` = 200):
one starting exactly at the boundary, one starting one second before it but
ending inside the window, and one starting inside but ending after `now`. -/
def rSessA : FocusSession :=
  { id := 1, user_id := 7, start_time := 100, end_time := some 160,
    actual_minutes := some 1, was_completed := true }

/-- Session starting one second before the window, ending inside it. -/
def rSessB : FocusSession :=
  { id := 2, user_id := 7, start_time := 99, end_time := some 159,
    actual_minutes := some 1, was_completed := true }

/-- Session starting inside the window, ending after the report instant. -/
def rSessC : FocusSession :=
  { id := 3, user_id := 7, start_time := 150, end_time := some 99999,
    actual_minutes := some 40, was_completed := false }

/-- Database for the window-boundary report example. -/
def rDB : DB := { sessions := [rSessA, rSessB, rSessC], next_session_id := 4 }

/-- An open session of user 7 with no linked task. -/
def nSess : FocusSession := { id := 1, user_id := 7, start_time := 0 }

/-- Database with one open task-less session. -/
def nDB : DB := { sessions := [nSess], next_session_id := 2 }

/-- A closed session of user 7 with no linked task. -/
def cnSess : FocusSession :=
  { id := 1, user_id := 7, start_time := 0, end_time := some 1500,
    actual_minutes := some 25, was_completed := true }

/-- Database with one closed task-less session. -/
def cnDB : DB := { sessions := [cnSess], next_session_id := 2 }

/-- An open session of user 7 linked to task 1 with `planned_minutes = 0`. -/
def pSess : FocusSession :=
  { id := 1, user_id := 7, task_id := some 1, start_time := 0,
    planned_minutes := 0 }

/-- Database with the zero-planned-minutes session and its task. -/
def pDB : DB := { tasks := [wTask], sessions := [pSess], next_session_id := 2 }

/-- Done task of user 8 with estimate 4 and actual 5. -/
def eTaskA : Task :=
  { id := 1, assignee_id := some 8, status := "done",
    estimate_pomos := some 4, actual_pomos := some 5 }

/-- Done task of user 8 with estimate 6 and actual 5. -/
def eTaskB : Task :=
  { id := 2, assignee_id := some 8, status := "done",
    estimate_pomos := some 6, actual_pomos := some 5 }

/-- Database for the estimate-accuracy example: user 8 has two done tasks
with estimates `[4, 6]` and actuals `[5, 5]`; user 9 has no tasks at all. -/
def eDB : DB := { tasks := [eTaskA, eTaskB] }

/-! Helper lemmas. -/

/-- Floor division of a negative integer by 60 is nonpositive. -/
theorem fdiv_sixty_nonpos (d : Int) (h : d < 0) : Int.fdiv d 60 ≤ 0 := by
  cases d with
  | ofNat n => exact absurd h (by simp)
  | negSucc n =>
    have h1 : Int.fdiv (Int.negSucc n) 60 = Int.negSucc (n / 60) := rfl
    rw [h1]
    exact (Int.negSucc_lt_zero _).le

/-- Updating, by a predicate that the replacement still satisfies, commutes
with `find?`: the first match is replaced, everything before it untouched. -/
theorem find?_update {α : Type} (p : α → Bool) (f : α → α)
    (hp : ∀ a, p a = true → p (f a) = true) :
    ∀ l : List α, (l.map fun x => if p x then f x else x).find? p =
      (l.find? p).map f := by
  intro l
  induction l with
  | nil => simp
  | cons x xs ih =>
    by_cases hx : p x = true
    · simp [List.find?, hx, hp x hx]
    · have hx' : p x = false := by simpa using hx
      simp [List.find?, hx', ih]

/-- After the by-primary-key row update performed by `finish_session`, the
session looked up by `sid` is the replacement row. -/
theorem findSession_after_update (db : DB) (sid : Int) (s s' : FocusSession)
    (hfind : findSession db.sessions sid = some s) (hid : s'.id = s.id) :
    findSession (db.sessions.map fun x => if x.id == s.id then s' else x) sid
      = some s' := by
  have hf : List.find? (fun a => a.id == sid) db.sessions = some s := hfind
  have hsid0 := List.find?_some hf
  have hsid : s.id = sid := by simpa using hsid0
  subst hsid
  have hu := find?_update (fun a => a.id == s.id) (fun _ => s')
      (fun a h => by simpa using hid) db.sessions
  rw [hf] at hu
  exact hu.trans rfl

/-- On a `finish_session` call by the owner of a session whose linked task
exists, the call succeeds and the task comes out incremented exactly when the
computed completion flag and the threshold test hold. Shared workhorse for
the claims about the completion heuristic. -/
theorem finish_heuristic_core
    (db : DB) (caller sid : Int) (cf nts : Option String) (now : Int)
    (s : FocusSession) (tid : Int) (t : Task)
    (hfind : findSession db.sessions sid = some s)
    (hown : s.user_id = caller)
    (htid : s.task_id = some tid)
    (h0 : tid ≠ 0)
    (ht : findTask db.tasks tid = some t) :
    ∃ db', finish_session db caller sid cf nts now = .ok db' ∧
      findTask db'.tasks tid =
        (if ((cf.getD "true") == "true")
            && decide (s.planned_minutes - 1 ≤ max (Int.fdiv (now - s.start_time) 60) 0)
         then some { t with actual_pomos := some (orZero t.actual_pomos + 1) }
         else some t) := by
  subst hown
  have htrue : (tid != 0) = true := by simpa using h0
  have ht' : List.find? (fun a => a.id == tid) db.tasks = some t := ht
  have hpt0 := List.find?_some ht'
  have hpt : (t.id == tid) = true := hpt0
  unfold finish_session
  rw [hfind]
  simp only [ne_eq, not_true_eq_false, if_false, htid, htrue, Bool.true_and]
  cases hb : ((cf.getD "true") == "true")
      && decide (s.planned_minutes - 1 ≤ max (Int.fdiv (now - s.start_time) 60) 0) with
  | true =>
    simp only [if_true, ht]
    refine ⟨_, rfl, ?_⟩
    have hu := find?_update (fun a => a.id == tid)
        (fun _ => { t with actual_pomos := some (orZero t.actual_pomos + 1) })
        (fun a h => hpt) db.tasks
    rw [ht'] at hu
    exact hu.trans rfl
  | false =>
    simp only [Bool.false_eq_true, if_false]
    exact ⟨_, rfl, ht⟩

/-! Claim theorems. -/

/-- Claim C1: for every `finish_session` call on a session owned by the
caller whose linked task exists, the task's `actual_pomos` is incremented by
exactly 1 precisely when the computed `was_completed` is true and the
computed `actual_minutes` is at least `planned_minutes - 1`; the heuristic
changes no other field of the task (the `else` branch returns the task
unchanged, the `then` branch updates only `actual_pomos`). -/
theorem C1_completion_heuristic
    (db : DB) (caller sid : Int) (cf nts : Option String) (now : Int)
    (s : FocusSession) (tid : Int) (t : Task)
    (hfind : findSession db.sessions sid = some s)
    (hown : s.user_id = caller)
    (htid : s.task_id = some tid)
    (h0 : tid ≠ 0)
    (ht : findTask db.tasks tid = some t) :
    ∃ db', finish_session db caller sid cf nts now = .ok db' ∧
      findTask db'.tasks tid =
        (if ((cf.getD "true") == "true")
            && decide (s.planned_minutes - 1 ≤ max (Int.fdiv (now - s.start_time) 60) 0)
         then some { t with actual_pomos := some (orZero t.actual_pomos + 1) }
         else some t) :=
  finish_heuristic_core db caller sid cf nts now s tid t hfind hown htid h0 ht

/-- Witness for C1: in `wDB` (planned 25 minutes, completion flag defaulted
to true), finishing after 24 minutes (second 1440) increments task 1's
counter from 0 to 1, while finishing after 23 minutes and 59 seconds
(second 1439, `actual_minutes = 23`) leaves the task unchanged. -/
theorem C1_completion_heuristic_witness :
    (∃ db', finish_session wDB 7 1 none none 1440 = .ok db' ∧
      findTask db'.tasks 1 = some { wTask with actual_pomos := some 1 }) ∧
    (∃ db', finish_session wDB 7 1 none none 1439 = .ok db' ∧
      findTask db'.tasks 1 = some wTask) := by
  constructor
  · obtain ⟨db', hok, hfd⟩ :=
      C1_completion_heuristic wDB 7 1 none none 1440 wSess 1 wTask rfl rfl rfl
        (by decide) rfl
    refine ⟨db', hok, ?_⟩
    rw [hfd]
    decide
  · obtain ⟨db', hok, hfd⟩ :=
      C1_completion_heuristic wDB 7 1 none none 1439 wSess 1 wTask rfl rfl rfl
        (by decide) rfl
    refine ⟨db', hok, ?_⟩
    rw [hfd]
    decide

/-- Claim C2: whenever `finish_session` succeeds, the session's
`actual_minutes` equals `max 0 (floor((end_time - start_time) / 60s))`, and
a negative elapsed delta yields `actual_minutes = 0`; moreover a negative
delta by itself is no reason for failure (an owned, task-less session always
finishes successfully). -/
theorem C2_actual_minutes
    (db : DB) (caller sid : Int) (cf nts : Option String) (now : Int)
    (s : FocusSession)
    (hfind : findSession db.sessions sid = some s) :
    (∀ db', finish_session db caller sid cf nts now = .ok db' →
      ∃ s', findSession db'.sessions sid = some s' ∧
        s'.actual_minutes = some (max 0 (Int.fdiv (now - s.start_time) 60)) ∧
        (now - s.start_time < 0 → s'.actual_minutes = some 0))
    ∧ (s.user_id = caller → s.task_id = none →
        ∃ db', finish_session db caller sid cf nts now = .ok db') := by
  have hupd : ∀ s' : FocusSession, s'.id = s.id →
      findSession (db.sessions.map fun x => if x.id == s.id then s' else x) sid
        = some s' := fun s' h => findSession_after_update db sid s s' hfind h
  have hmax : max (Int.fdiv (now - s.start_time) 60) 0
      = max 0 (Int.fdiv (now - s.start_time) 60) := max_comm _ _
  have hneg : now - s.start_time < 0 →
      max 0 (Int.fdiv (now - s.start_time) 60) = 0 := fun h =>
    max_eq_left (fdiv_sixty_nonpos _ h)
  constructor
  · intro db' hok
    unfold finish_session at hok
    rw [hfind] at hok
    by_cases hown : s.user_id ≠ caller
    · simp only [if_pos hown] at hok
      exact absurd hok (by simp)
    · simp only [if_neg hown] at hok
      cases hti : s.task_id with
      | none =>
        simp only [hti] at hok
        cases hok
        refine ⟨_, hupd _ rfl, ?_, ?_⟩
        · simp [hmax]
        · intro h; simp [hmax ▸ hneg h]
      | some tid =>
        simp only [hti] at hok
        by_cases hb : ((tid != 0)
            && ((cf.getD "true") == "true")
            && decide (s.planned_minutes - 1
              ≤ max (Int.fdiv (now - s.start_time) 60) 0)) = true
        · rw [if_pos hb] at hok
          cases hft : findTask db.tasks tid with
          | none => rw [hft] at hok; exact absurd hok (by simp)
          | some t =>
            rw [hft] at hok
            cases hok
            refine ⟨_, hupd _ rfl, ?_, ?_⟩
            · simp [hmax]
            · intro h; simp [hmax ▸ hneg h]
        · rw [if_neg hb] at hok
          cases hok
          refine ⟨_, hupd _ rfl, ?_, ?_⟩
          · simp [hmax]
          · intro h; simp [hmax ▸ hneg h]
  · intro hown hti
    unfold finish_session
    rw [hfind]
    simp only [hown, ne_eq, not_true_eq_false, if_false, hti]
    exact ⟨_, rfl⟩

/-- Witness for C2: in `nDB`, user 7 finishes their session at time -5,
five seconds before it started (clock set backward); the call succeeds and
`actual_minutes` is 0. -/
theorem C2_actual_minutes_witness :
    ∃ db' s', finish_session nDB 7 1 none none (-5) = .ok db' ∧
      findSession db'.sessions 1 = some s' ∧ s'.actual_minutes = some 0 := by
  obtain ⟨db', hok⟩ :=
    (C2_actual_minutes nDB 7 1 none none (-5) nSess rfl).2 rfl rfl
  obtain ⟨s', hf, hm, hneg⟩ :=
    (C2_actual_minutes nDB 7 1 none none (-5) nSess rfl).1 db' hok
  exact ⟨db', s', hok, hf, hneg (by decide)⟩

/-- Counterexample to C3: `cDB` holds a Closed session (`end_time = 1500`)
whose counter side effect already fired once (`actual_pomos = 1`). A second
`finish_session` call by the owner succeeds, overwrites `end_time` with the
new clock value 6000, and re-fires the side effect, bumping the task's
counter to 2 — so a Closed session is mutated again and Closed is not
terminal. -/
theorem C3_counterexample :
    (∃ s, findSession cDB.sessions 1 = some s ∧ s.end_time = some 1500 ∧
      s.was_completed = true) ∧
    (∃ db' s' t', finish_session cDB 7 1 none none 6000 = .ok db' ∧
      findSession db'.sessions 1 = some s' ∧ s'.end_time = some 6000 ∧
      findTask db'.tasks 1 = some t' ∧ t'.actual_pomos = some 2) := by
  refine ⟨⟨cSess, rfl, rfl, rfl⟩, ⟨_, _, _, rfl, rfl, by decide, rfl, rfl⟩⟩

/-- Amended C3: a `FocusSession` is mutated only by `finish_session`
(`start_session` creates a new row and leaves every existing session and
every task untouched), but `finish_session` has no guard on `end_time`, so a
second finish call by the owner succeeds and overwrites `end_time` (and can
re-fire the task counter, as the counterexample shows): Closed is not
terminal against repeated finishes. -/
theorem C3_amended_mutation :
    (∀ db me tf pf now db' rid, start_session db me tf pf now = .ok (db', rid) →
      db'.tasks = db.tasks ∧ ∀ s ∈ db.sessions, s ∈ db'.sessions)
    ∧ (∀ db caller sid cf nts now s e,
        findSession db.sessions sid = some s → s.user_id = caller →
        s.end_time = some e → s.task_id = none →
        ∃ db' s', finish_session db caller sid cf nts now = .ok db' ∧
          findSession db'.sessions sid = some s' ∧ s'.end_time = some now) := by
  constructor
  · intro db me tf pf now db' rid hok
    unfold start_session at hok
    cases htf : parseTaskId tf with
    | error e => rw [htf] at hok; exact absurd hok (by simp)
    | ok otid =>
      rw [htf] at hok
      cases hpf : parsePlanned pf with
      | error e => rw [hpf] at hok; exact absurd hok (by simp)
      | ok pl =>
        rw [hpf] at hok
        cases hok
        exact ⟨rfl, fun s hs => List.mem_append_left _ hs⟩
  · intro db caller sid cf nts now s e hfind hown hend htin
    subst hown
    unfold finish_session
    rw [hfind]
    simp only [ne_eq, not_true_eq_false, if_false, htin]
    exact ⟨_, _, rfl, findSession_after_update db sid s _ hfind rfl, rfl⟩

/-- Witness for amended C3: starting a session in the empty database leaves
the (empty) task table unchanged, and the Closed task-less session of `cnDB`
is finished a second time at 9999, which overwrites its `end_time`. -/
theorem C3_amended_witness :
    (∃ db1, start_session dbE 1 none none 0 = .ok (db1, 1) ∧
      db1.tasks = dbE.tasks) ∧
    (∃ db' s', finish_session cnDB 7 1 none none 9999 = .ok db' ∧
      findSession db'.sessions 1 = some s' ∧ s'.end_time = some 9999) := by
  constructor
  · refine ⟨_, rfl, ?_⟩
    exact (C3_amended_mutation.1 dbE 1 none none 0 _ 1 rfl).1
  · exact C3_amended_mutation.2 cnDB 7 1 none none 9999 cnSess 1500 rfl rfl rfl rfl

/-- Claim C4: `finish_session` fails with NotFound when no session has the
given id, and with Forbidden when the caller is not the session's owner —
the role of the caller is not consulted at all (the check compares ids
only), so a leader has no override. Both errors are raised by `abort`
before any mutation reaches the commit, modelled by the error result that
carries no database change. -/
theorem C4_not_found_forbidden
    (db : DB) (caller sid : Int) (cf nts : Option String) (now : Int) :
    (findSession db.sessions sid = none →
      finish_session db caller sid cf nts now = .error .notFound)
    ∧ (∀ s, findSession db.sessions sid = some s → s.user_id ≠ caller →
      finish_session db caller sid cf nts now = .error .forbidden) := by
  constructor
  · intro h
    unfold finish_session
    rw [h]
  · intro s h hne
    unfold finish_session
    rw [h]
    exact if_pos hne

/-- Witness for C4: finishing the nonexistent session 1 in the empty
database yields NotFound; user 8 finishing user 7's session yields
Forbidden. -/
theorem C4_not_found_forbidden_witness :
    finish_session dbE 3 1 none none 0 = .error .notFound ∧
    finish_session wDB 8 1 none none 0 = .error .forbidden :=
  ⟨(C4_not_found_forbidden dbE 3 1 none none 0).1 rfl,
   (C4_not_found_forbidden wDB 8 1 none none 0).2 wSess rfl (by decide)⟩

/-- Claim C5: under the report invariant that every stored session started
no later than the report instant `now` (true by construction, since
`start_time` is a past `utcnow`), a user's `focus_minutes` sums
`actual_minutes` over exactly the sessions whose `start_time` lies in the
window `[start, now]` — membership is decided by start time only — and
`pomodoro_count` counts that same session set filtered by `was_completed`. -/
theorem C5_window_by_start
    (db : DB) (uid start now : Int)
    (hnow : ∀ s ∈ db.sessions, s.start_time ≤ now) :
    (perUserStats db uid start).focus_minutes =
      ((db.sessions.filter (fun s => s.user_id == uid
          && decide (start ≤ s.start_time) && decide (s.start_time ≤ now))).map
        (fun s => orZero s.actual_minutes)).sum
    ∧ (perUserStats db uid start).pomos =
      ((db.sessions.filter (fun s => s.user_id == uid
          && decide (start ≤ s.start_time) && decide (s.start_time ≤ now))).filter
        (fun s => s.was_completed)).length := by
  have hfe : db.sessions.filter
        (fun s => s.user_id == uid && decide (start ≤ s.start_time))
      = db.sessions.filter (fun s => s.user_id == uid
          && decide (start ≤ s.start_time) && decide (s.start_time ≤ now)) := by
    apply List.filter_congr
    intro x hx
    simp [hnow x hx]
  constructor
  · show ((db.sessions.filter
        (fun s => s.user_id == uid && decide (start ≤ s.start_time))).map
        (fun s => orZero s.actual_minutes)).sum = _
    rw [hfe]
  · show ((db.sessions.filter
        (fun s => s.user_id == uid && decide (start ≤ s.start_time))).filter
        (fun s => s.was_completed)).length = _
    rw [hfe]

/-- Witness for C5: in `rDB` with window `[100, 200]`, the session starting
at 99 (one second early, even though it ends inside the window) is excluded,
the one starting at 150 but ending long after `now` is counted fully, so
`focus_minutes = 1 + 40 = 41` and only the boundary session is a completed
pomodoro. -/
theorem C5_window_by_start_witness :
    (∀ s ∈ rDB.sessions, s.start_time ≤ 200) ∧
    (perUserStats rDB 7 100).focus_minutes =
      ((rDB.sessions.filter (fun s => s.user_id == 7
          && decide (100 ≤ s.start_time) && decide (s.start_time ≤ 200))).map
        (fun s => orZero s.actual_minutes)).sum ∧
    (perUserStats rDB 7 100).focus_minutes = 41 ∧
    (perUserStats rDB 7 100).pomos = 1 :=
  ⟨by decide, (C5_window_by_start rDB 7 100 200 (by decide)).1,
   by decide, by decide⟩

/-- Claim C6: `tasks_done` counts the user's tasks with status `"done"`
with no time-window filter (the right-hand sides never mention the window
`start`), and `estimate_accuracy` is `act/est*100` rounded to one decimal
when `est > 0` and `0` when `est = 0`; concretely, estimates `[4, 6]` with
actuals `[5, 5]` give `100.0`, and a user with zero done tasks gets `0`. -/
theorem C6_done_tasks_accuracy (db : DB) (uid start : Int) :
    ((perUserStats db uid start).tasks_done =
      (db.tasks.filter
        (fun t => t.assignee_id == some uid && t.status == "done")).length)
    ∧ ((perUserStats db uid start).estimate_accuracy =
      (if 0 < ((db.tasks.filter (fun t => t.assignee_id == some uid
            && t.status == "done")).map (fun t => orZero t.estimate_pomos)).sum
       then roundTenths
        ((((db.tasks.filter (fun t => t.assignee_id == some uid
            && t.status == "done")).map (fun t => orZero t.actual_pomos)).sum : ℚ)
          / (((db.tasks.filter (fun t => t.assignee_id == some uid
            && t.status == "done")).map (fun t => orZero t.estimate_pomos)).sum : ℚ)
          * 100)
       else roundTenths 0))
    ∧ (perUserStats eDB 8 0).estimate_accuracy = 100
    ∧ (perUserStats eDB 9 0).estimate_accuracy = 0
    ∧ (perUserStats eDB 9 0).tasks_done = 0 := by
  refine ⟨rfl, ?_, ?_, ?_, rfl⟩
  · show roundTenths _ = _
    by_cases h : 0 < ((db.tasks.filter (fun t => t.assignee_id == some uid
        && t.status == "done")).map (fun t => orZero t.estimate_pomos)).sum
    · rw [if_pos h, if_pos h]
    · rw [if_neg h, if_neg h]
  · norm_num [perUserStats, eDB, eTaskA, eTaskB, orZero, roundTenths,
      roundHalfEven]
  · norm_num [perUserStats, eDB, eTaskA, eTaskB, orZero, roundTenths,
      roundHalfEven]

/-- Claim C7: `start_session` accepts a zero or negative `planned_minutes`
without rejection (the parsed value is stored verbatim), and on finishing
such a session with a linked existing task and completion flag true the
threshold `actual_minutes ≥ planned_minutes - 1` is always met (since
`actual_minutes ≥ 0 > planned_minutes - 1`), so the task's counter is
always incremented. -/
theorem C7_nonpositive_planned :
    (∀ db me pf pl now, parsePlanned pf = .ok pl → pl ≤ 0 →
      ∃ db' rid s, start_session db me none pf now = .ok (db', rid) ∧
        db'.sessions = db.sessions ++ [s] ∧ s.planned_minutes = pl)
    ∧ (∀ db caller sid cf nts now s tid t,
        findSession db.sessions sid = some s → s.user_id = caller →
        s.task_id = some tid → tid ≠ 0 → findTask db.tasks tid = some t →
        s.planned_minutes ≤ 0 → (cf.getD "true") = "true" →
        ∃ db', finish_session db caller sid cf nts now = .ok db' ∧
          findTask db'.tasks tid =
            some { t with actual_pomos := some (orZero t.actual_pomos + 1) }) := by
  constructor
  · intro db me pf pl now hpf hple
    unfold start_session
    rw [hpf]
    exact ⟨_, _, _, rfl, rfl, rfl⟩
  · intro db caller sid cf nts now s tid t hfind hown htid h0 ht hple hwc
    have hthr : s.planned_minutes - 1 ≤ max (Int.fdiv (now - s.start_time) 60) 0 :=
      le_trans (by omega) (le_max_right _ _)
    obtain ⟨db', hok, hfd⟩ :=
      finish_heuristic_core db caller sid cf nts now s tid t hfind hown htid h0 ht
    refine ⟨db', hok, ?_⟩
    rw [hfd, if_pos]
    rw [hwc]
    simp [hthr]

/-- Witness for C7: `planned_minutes = "0"` is accepted and stored as 0,
and finishing the zero-planned session of `pDB` immediately (at its own
start instant, `actual_minutes = 0 ≥ -1`) increments task 1's counter. -/
theorem C7_nonpositive_planned_witness :
    parsePlanned (some "0") = .ok 0 ∧
    (∃ db' rid s, start_session dbE 5 none (some "0") 10 = .ok (db', rid) ∧
      db'.sessions = dbE.sessions ++ [s] ∧ s.planned_minutes = 0) ∧
    (∃ db', finish_session pDB 7 1 none none 0 = .ok db' ∧
      findTask db'.tasks 1 =
        some { wTask with actual_pomos := some (orZero wTask.actual_pomos + 1) }) :=
  ⟨by decide,
   C7_nonpositive_planned.1 dbE 5 (some "0") 0 10 (by decide) le_rfl,
   C7_nonpositive_planned.2 pDB 7 1 none none 0 pSess 1 wTask rfl rfl rfl
     (by decide) rfl (by decide) rfl⟩

/-- Claim C8: `start_session` with a dangling `task_id` still succeeds, the
created session then has `project_id = null`; every successful call appends
exactly one new session record with `end_time` null, `was_completed` false
and `actual_minutes` 0, and the task table of the result is the unchanged
task table of the input (visible in the returned record update, which only
touches `sessions` and the id counter). -/
theorem C8_start_session_creates
    (db : DB) (me : Int) (tf pf : Option String) (now : Int)
    (otid : Option Int) (pl : Int)
    (htf : parseTaskId tf = .ok otid) (hpf : parsePlanned pf = .ok pl) :
    ∃ s : FocusSession,
      start_session db me tf pf now =
        .ok ({ db with
               sessions := db.sessions ++ [s]
               next_session_id := db.next_session_id + 1 }, s.id) ∧
      s.end_time = none ∧ s.was_completed = false ∧
      s.actual_minutes = some 0 ∧ s.user_id = me ∧ s.task_id = otid ∧
      s.start_time = now ∧ s.planned_minutes = pl ∧
      (∀ tid, otid = some tid → findTask db.tasks tid = none →
        s.project_id = none) := by
  unfold start_session
  rw [htf, hpf]
  refine ⟨_, rfl, rfl, rfl, rfl, rfl, rfl, rfl, rfl, ?_⟩
  intro tid h hmiss
  subst h
  simp [hmiss]

/-- Witness for C8: starting a session against the nonexistent task 9 in
the empty database succeeds and creates the one new open session. -/
theorem C8_start_session_creates_witness :
    parseTaskId (some "9") = .ok (some 9) ∧ parsePlanned none = .ok 25 ∧
    findTask dbE.tasks 9 = none ∧
    (∃ s : FocusSession,
      start_session dbE 3 (some "9") none 50 =
        .ok ({ dbE with
               sessions := dbE.sessions ++ [s]
               next_session_id := dbE.next_session_id + 1 }, s.id) ∧
      s.end_time = none ∧ s.was_completed = false ∧
      s.actual_minutes = some 0 ∧ s.user_id = 3 ∧ s.task_id = some 9 ∧
      s.start_time = 50 ∧ s.planned_minutes = 25 ∧
      (∀ tid, (some 9 : Option Int) = some tid → findTask dbE.tasks tid = none →
        s.project_id = none)) :=
  ⟨by decide, rfl, rfl,
   C8_start_session_creates dbE 3 (some "9") none 50 (some 9) 25 (by decide) rfl⟩

/-- Counterexample to C9: a non-numeric `planned_minutes` of `"abc"` is not
coerced to the default 25 — `int("abc")` raises `ValueError` and the call is
rejected with an error. -/
theorem C9_counterexample :
    start_session dbE 1 none (some "abc") 0 = .error .valueError := by decide

/-- Amended C9: a missing `planned_minutes`, or one supplied as the empty
string, is defensively coerced to the default 25; but a non-empty
non-numeric value makes `int()` raise `ValueError` and the call errors
instead of being coerced. -/
theorem C9_amended
    (db : DB) (me now : Int) :
    (∃ db' rid s, start_session db me none none now = .ok (db', rid) ∧
      db'.sessions = db.sessions ++ [s] ∧ s.planned_minutes = 25)
    ∧ (∃ db' rid s, start_session db me none (some "") now = .ok (db', rid) ∧
      db'.sessions = db.sessions ++ [s] ∧ s.planned_minutes = 25)
    ∧ (∀ str, pyInt str = none → str ≠ "" →
      start_session db me none (some str) now = .error .valueError) := by
  refine ⟨⟨_, _, _, rfl, rfl, rfl⟩, ⟨_, _, _, rfl, rfl, rfl⟩, ?_⟩
  intro str hstr hne
  unfold start_session
  simp only [parseTaskId, parsePlanned, if_neg hne, hstr]

/-- Witness for amended C9: `"abc"` is non-numeric and nonempty, and the
start call with it errors. -/
theorem C9_amended_witness :
    pyInt "abc" = none ∧ "abc" ≠ "" ∧
    start_session wDB 2 none (some "abc") 77 = .error .valueError :=
  ⟨by decide, by decide, (C9_amended wDB 2 77).2.2 "abc" (by decide) (by decide)⟩

/-- Claim C10 (implicit): when the linked task has been deleted between
start and finish, an owner's finish with completion flag true and the
threshold met dereferences the `None` returned by the task lookup — the
request errors (`AttributeError`) instead of finishing the session with the
side effect skipped. -/
theorem C10_dangling_task_error
    (db : DB) (caller sid : Int) (cf nts : Option String) (now : Int)
    (s : FocusSession) (tid : Int)
    (hfind : findSession db.sessions sid = some s)
    (hown : s.user_id = caller)
    (htid : s.task_id = some tid) (h0 : tid ≠ 0)
    (hmiss : findTask db.tasks tid = none)
    (hwc : (cf.getD "true") = "true")
    (hthr : s.planned_minutes - 1 ≤ max (Int.fdiv (now - s.start_time) 60) 0) :
    finish_session db caller sid cf nts now = .error .attributeError := by
  subst hown
  unfold finish_session
  rw [hfind]
  simp only [ne_eq, not_true_eq_false, if_false, htid]
  have hb : ((tid != 0) && ((cf.getD "true") == "true")
      && decide (s.planned_minutes - 1
        ≤ max (Int.fdiv (now - s.start_time) 60) 0)) = true := by
    simp [h0, hwc, hthr]
  rw [if_pos hb, hmiss]

/-- Witness for C10: in `dDB` the session's task 9 does not exist; the
owner's finish after 25 minutes errors. -/
theorem C10_dangling_task_error_witness :
    findSession dDB.sessions 1 = some dSess ∧ dSess.task_id = some 9 ∧
    findTask dDB.tasks 9 = none ∧
    finish_session dDB 7 1 none none 1500 = .error .attributeError :=
  ⟨rfl, rfl, rfl,
   C10_dangling_task_error dDB 7 1 none none 1500 dSess 9 rfl rfl rfl
     (by decide) rfl rfl (by decide)⟩

end Pomo
